import Mathlib

/-!
Shallow embedding of the trajectory-mapper application (`src/main.py`).

The trajectory data of the application lives in four fields of the
`TrajectoryMapApp` widget: `completed_trajectories`, `current_trajectory`,
`is_drawing_mode` and `click_mode_enabled` (lines 35-38), plus the map-style
combo box read by `get_map_tiles` (line 429).  Points are `[lat, lng]` pairs
of Python floats; here the numeric values are modelled exactly as rationals
(the claims only involve range comparisons and equality of the stored values,
never float rounding).

Every mutating method is modelled as a pure function
`AppState → ... → AppState × List Effect`: the returned `Effect` list records,
in order, the UI side effects the method performs (status-label updates,
info-label messages, message boxes, map refreshes).  Message-box texts and
info-label texts are modelled structurally (constructors carrying the data
interpolated into the Python format strings) rather than as rendered strings.
-/

namespace TrajectoryMap

/-- A geographic point `[lat, lng]` (Python list of two floats). -/
abbrev Point := ℚ × ℚ

/-- The three entries of the map-style combo box (line 113). -/
inductive MapStyle where
  | openStreetMap
  | satelliteView
  | terrain
deriving DecidableEq

/-- The trajectory-relevant state of `TrajectoryMapApp` (lines 35-38 and the
style combo read by `get_map_tiles`). -/
structure AppState where
  completed_trajectories : List (List Point)
  current_trajectory : List Point
  is_drawing_mode : Bool
  click_mode_enabled : Bool
  map_style : MapStyle
deriving DecidableEq

/-- Info-label messages (`self.info_label.setText` calls), modelled by which
format string is used and the data interpolated into it. -/
inductive InfoMsg where
  | pointAddedFirst (count : Nat) (lat lng : ℚ)
  | pointAddedMore (count : Nat) (lat lng : ℚ)
  | trajectoryCompleted (trajectoryNum points : Nat)
  | currentCleared (points : Nat)
  | allCleared
  | clickModeOn
  | clickModeOff
deriving DecidableEq

/-- `QMessageBox.information` / `QMessageBox.warning` dialog contents. -/
inductive DialogMsg where
  | noTrajectory
  | nothingToClearCurrent
  | nothingToClearAll
  | latitudeOutOfRange
  | longitudeOutOfRange
deriving DecidableEq

/-- `QMessageBox.question` confirmation prompts, carrying the data shown. -/
inductive QuestionMsg where
  | singlePointTrajectory
  | clearAllConfirm (trajectories currentPoints : Nat)
deriving DecidableEq

/-- A UI side effect performed by a store operation, in program order. -/
inductive Effect where
  | updateStatusLabels (trajectories currentPoints : Nat)
  | setInfoLabel (msg : InfoMsg)
  | infoDialog (msg : DialogMsg)
  | warningDialog (msg : DialogMsg)
  | questionDialog (msg : QuestionMsg)
  | refreshMap
  | clearCoordinateInputs
  | setClickStatusLabel (enabled : Bool)
deriving DecidableEq

/-- `add_trajectory_point` (lines 270-293): gated on `is_drawing_mode` and
`click_mode_enabled` (a silent `return` when either is off), then appends
`[lat, lng]` to `current_trajectory`, updates the status labels, sets the
info label (first-point vs further-point message) and refreshes the map.
No coordinate validation happens here. -/
def add_trajectory_point (s : AppState) (lat lng : ℚ) : AppState × List Effect :=
  if s.is_drawing_mode = false ∨ s.click_mode_enabled = false then
    (s, [])
  else
    let current := s.current_trajectory ++ [(lat, lng)]
    let point_count := current.length
    ({ s with current_trajectory := current },
     [Effect.updateStatusLabels s.completed_trajectories.length point_count,
      Effect.setInfoLabel
        (if point_count = 1 then InfoMsg.pointAddedFirst point_count lat lng
         else InfoMsg.pointAddedMore point_count lat lng),
      Effect.refreshMap])

/-- `MapClickHandler.on_map_click` (lines 21-25): forwards a map click to
`add_trajectory_point` only when `click_mode_enabled` is set. -/
def on_map_click (s : AppState) (lat lng : ℚ) : AppState × List Effect :=
  if s.click_mode_enabled then add_trajectory_point s lat lng else (s, [])

/-- `add_manual_point` (lines 295-322), from the point where both text fields
parsed as numbers (the Qt text-field reading, `float()` parsing and the
missing-input warning are the surrounding I/O layer).  Latitude is range
checked first, then longitude; an out-of-range value raises `ValueError`,
caught and shown as a warning dialog with no state change.  On valid input it
calls `add_trajectory_point` and then clears the two input fields. -/
def add_manual_point (s : AppState) (lat lng : ℚ) : AppState × List Effect :=
  if ¬(-90 ≤ lat ∧ lat ≤ 90) then
    (s, [Effect.warningDialog DialogMsg.latitudeOutOfRange])
  else if ¬(-180 ≤ lng ∧ lng ≤ 180) then
    (s, [Effect.warningDialog DialogMsg.longitudeOutOfRange])
  else
    let r := add_trajectory_point s lat lng
    (r.1, r.2 ++ [Effect.clearCoordinateInputs])

/-- `finish_current_trajectory` (lines 324-352).  `reply_yes` is the operator's
answer to the single-point confirmation dialog (only consulted when the dialog
is actually shown, i.e. when the current trajectory has exactly one point).
On success, `current_trajectory.copy()` is appended to
`completed_trajectories` and `current_trajectory` is reset to a fresh empty
list. -/
def finish_current_trajectory (s : AppState) (reply_yes : Bool) :
    AppState × List Effect :=
  if s.current_trajectory.length = 0 then
    (s, [Effect.infoDialog DialogMsg.noTrajectory])
  else
    let ask : List Effect :=
      if s.current_trajectory.length = 1 then
        [Effect.questionDialog QuestionMsg.singlePointTrajectory]
      else []
    if s.current_trajectory.length = 1 ∧ reply_yes = false then
      (s, ask)
    else
      let points_saved := s.current_trajectory.length
      let completed := s.completed_trajectories ++ [s.current_trajectory]
      ({ s with completed_trajectories := completed, current_trajectory := [] },
       ask ++
        [Effect.updateStatusLabels completed.length 0,
         Effect.setInfoLabel (InfoMsg.trajectoryCompleted completed.length points_saved),
         Effect.refreshMap])

/-- `clear_current_trajectory` (lines 354-364). -/
def clear_current_trajectory (s : AppState) : AppState × List Effect :=
  if s.current_trajectory.length = 0 then
    (s, [Effect.infoDialog DialogMsg.nothingToClearCurrent])
  else
    let points_cleared := s.current_trajectory.length
    ({ s with current_trajectory := [] },
     [Effect.updateStatusLabels s.completed_trajectories.length 0,
      Effect.setInfoLabel (InfoMsg.currentCleared points_cleared),
      Effect.refreshMap])

/-- `clear_all_trajectories` (lines 366-386).  `reply_yes` is the operator's
answer to the clear-all confirmation dialog, whose text carries the two counts
(completed trajectories and current points) computed before clearing. -/
def clear_all_trajectories (s : AppState) (reply_yes : Bool) :
    AppState × List Effect :=
  let total_trajectories := s.completed_trajectories.length
  let current_points := s.current_trajectory.length
  if total_trajectories = 0 ∧ current_points = 0 then
    (s, [Effect.infoDialog DialogMsg.nothingToClearAll])
  else
    let ask := Effect.questionDialog
      (QuestionMsg.clearAllConfirm total_trajectories current_points)
    if reply_yes then
      ({ s with completed_trajectories := [], current_trajectory := [] },
       [ask, Effect.updateStatusLabels 0 0,
        Effect.setInfoLabel InfoMsg.allCleared, Effect.refreshMap])
    else
      (s, [ask])

/-- `toggle_click_mode` (lines 204-215): sets `click_mode_enabled` from the
checkbox state and updates the click-status and info labels. -/
def toggle_click_mode (s : AppState) (checked : Bool) : AppState × List Effect :=
  ({ s with click_mode_enabled := checked },
   [Effect.setClickStatusLabel checked,
    Effect.setInfoLabel (if checked then InfoMsg.clickModeOn else InfoMsg.clickModeOff)])

/-! ## Scene builder (`refresh_map` / `add_all_trajectories_to_map` /
`add_single_trajectory_to_map`, lines 465-572) -/

/-- `self.trajectory_colors` (lines 41-45): the fixed 15-colour palette. -/
def trajectory_colors : List String :=
  ["red", "blue", "green", "purple", "orange",
   "darkred", "pink", "gray", "darkblue", "darkgreen",
   "cadetblue", "darkpurple", "lightred", "beige", "lightblue"]

/-- `self.trajectory_colors[index % len(self.trajectory_colors)]` (line 507).
`index % 15 < 15`, so the default is never used. -/
def palette_color (index : Nat) : String :=
  trajectory_colors.getD (index % trajectory_colors.length) ""

/-- The hard-coded highlight colour of the in-progress trajectory
(lines 545, 547, 567). -/
def current_highlight_color : String := "#FF6600"

/-- Popup contents emitted by `add_single_trajectory_to_map`, modelled by
which format string is used and the data interpolated into it (the tooltips
duplicate the identifying data of the popups and are not modelled
separately). -/
inductive Popup where
  | trajStart (trajectoryNum : Nat) (p : Point)
  | trajEnd (trajectoryNum : Nat) (p : Point)
  | midPoint (pointNum : Nat) (p : Point)
  | currentPoint (pointNum : Nat) (p : Point)
  | trajLine (trajectoryNum points : Nat)
  | currentLine (points : Nat)
deriving DecidableEq

/-- One folium overlay object added to the map.  Keyword arguments the source
omits (relying on folium defaults) are `Option.none`. -/
inductive SceneElement where
  | marker (pos : Point) (popup : Popup) (iconColor iconGlyph : String)
  | circleMarker (pos : Point) (radius : Nat) (popup : Popup)
      (color fillColor : String) (fillOpacity : ℚ) (weight : Option Nat)
  | polyLine (locations : List Point) (color : String) (weight : Nat)
      (opacity : ℚ) (dashArray : Option String) (popup : Popup)
deriving DecidableEq

/-- The marker the point-loop of `add_single_trajectory_to_map`
(lines 510-550) emits for the point at position `i` of a trajectory of length
`n` at display index `index`.  Completed trajectories: start marker for
`i == 0`, end marker for `i == len - 1` (only reachable when `n ≥ 2`, since
the start branch is checked first), small palette-coloured circles in
between.  The current trajectory: one large highlight circle per point. -/
def trajectory_point_marker (color : String) (index n : Nat) (completed : Bool)
    (i : Nat) (point : Point) : SceneElement :=
  match completed with
  | true =>
    if i = 0 then
      SceneElement.marker point (Popup.trajStart (index + 1) point) "green" "play"
    else if i = n - 1 then
      SceneElement.marker point (Popup.trajEnd (index + 1) point) "red" "stop"
    else
      SceneElement.circleMarker point 5 (Popup.midPoint (i + 1) point)
        color color (7/10) none
  | false =>
    SceneElement.circleMarker point 8 (Popup.currentPoint (i + 1) point)
      current_highlight_color current_highlight_color 1 (some 3)

/-- `add_single_trajectory_to_map` (lines 502-572): empty trajectories
contribute nothing; otherwise one marker per point (in point order), then a
connecting polyline when the trajectory has more than one point — solid in
the palette colour for completed trajectories, dashed in the highlight colour
for the current one. -/
def add_single_trajectory_to_map (trajectory : List Point) (index : Nat)
    (completed : Bool) : List SceneElement :=
  if trajectory.length = 0 then []
  else
    let color := palette_color index
    let markers := trajectory.enum.map
      (fun ip => trajectory_point_marker color index trajectory.length completed ip.1 ip.2)
    let lines :=
      if trajectory.length > 1 then
        match completed with
        | true =>
          [SceneElement.polyLine trajectory color 4 (4/5) none
            (Popup.trajLine (index + 1) trajectory.length)]
        | false =>
          [SceneElement.polyLine trajectory current_highlight_color 5 1
            (some "10, 5") (Popup.currentLine trajectory.length)]
      else []
    markers ++ lines

/-- `add_all_trajectories_to_map` (lines 492-500): completed trajectories in
index order, then the current trajectory (at index `len(completed)`) when it
is non-empty. -/
def add_all_trajectories_to_map (completed : List (List Point))
    (current : List Point) : List SceneElement :=
  (completed.enum.map (fun it => add_single_trajectory_to_map it.2 it.1 true)).flatten
    ++ (if current.isEmpty then []
        else add_single_trajectory_to_map current completed.length false)

/-- A folium tile configuration (`get_map_tiles`, lines 427-445). -/
structure TileConfig where
  tiles : String
  attr : Option String
deriving DecidableEq

/-- `get_map_tiles` (lines 427-445). -/
def get_map_tiles : MapStyle → TileConfig
  | MapStyle.satelliteView =>
    ⟨"https://server.arcgisonline.com/ArcGIS/rest/services/World_Imagery/MapServer/tile/{z}/{y}/{x}",
     some "Tiles © Esri"⟩
  | MapStyle.terrain =>
    ⟨"https://server.arcgisonline.com/ArcGIS/rest/services/World_Terrain_Base/MapServer/tile/{z}/{y}/{x}",
     some "Tiles © Esri"⟩
  | MapStyle.openStreetMap => ⟨"OpenStreetMap", none⟩

/-- The centering rule of `refresh_map` (lines 467-478): last current point at
zoom 15; else last point of the last completed trajectory at zoom 15; else
the NYC default at zoom 12. -/
def refresh_center_zoom (s : AppState) : Point × Nat :=
  match s.current_trajectory.getLast? with
  | some p => (p, 15)
  | none =>
    match s.completed_trajectories.getLast? with
    | some last_trajectory =>
      match last_trajectory.getLast? with
      | some p => (p, 15)
      | none => ((40.7128, -74.0060), 12)
    | none => ((40.7128, -74.0060), 12)

/-- The rendered document produced by one `refresh_map` run: a fresh folium
map (`create_map_at_location`) holding the tile layer, centre/zoom, the full
scene, and the injected click-forwarding script (`add_map_click_handler`). -/
structure RenderedMap where
  center : Point
  zoom : Nat
  tiles : TileConfig
  elements : List SceneElement
  clickHandlerInstalled : Bool
deriving DecidableEq

/-- `refresh_map` (lines 465-490): recentre, create a brand-new map, add the
whole scene, re-inject the click handler, publish. -/
def refresh_map (s : AppState) : RenderedMap :=
  let cz := refresh_center_zoom s
  { center := cz.1
    zoom := cz.2
    tiles := get_map_tiles s.map_style
    elements := add_all_trajectories_to_map s.completed_trajectories s.current_trajectory
    clickHandlerInstalled := true }

/-! ## Concrete states used by witnesses and counterexamples -/

/-- The trajectory state right after `TrajectoryMapApp.__init__` (lines 35-38):
both collections empty, drawing mode and click mode on, standard tiles. -/
def initial_state : AppState :=
  { completed_trajectories := []
    current_trajectory := []
    is_drawing_mode := true
    click_mode_enabled := true
    map_style := MapStyle.openStreetMap }

/-- The end-to-end scenario 3 state: two completed trajectories of 3 and 5
points and two current points. -/
def scenario3_state : AppState :=
  { completed_trajectories :=
      [[(1, 1), (2, 2), (3, 3)],
       [(4, 4), (5, 5), (6, 6), (7, 7), (8, 8)]]
    current_trajectory := [(9, 9), (10, 10)]
    is_drawing_mode := true
    click_mode_enabled := true
    map_style := MapStyle.openStreetMap }

/-- A state with a two-point current trajectory, used by witnesses. -/
def two_point_state : AppState :=
  { initial_state with current_trajectory := [(40, -74), (41, -75)] }

/-- The user-triggerable operations that can touch `current_trajectory` after
a finish: map clicks, manual entry, clearing the current trajectory, and
toggling click capture. -/
inductive CurMutation where
  | mapClick (lat lng : ℚ)
  | manualAdd (lat lng : ℚ)
  | clearCurrent
  | toggleClick (checked : Bool)

/-- Run one post-finish operation, keeping only the state. -/
def apply_current_mutation (s : AppState) : CurMutation → AppState
  | CurMutation.mapClick lat lng => (on_map_click s lat lng).1
  | CurMutation.manualAdd lat lng => (add_manual_point s lat lng).1
  | CurMutation.clearCurrent => (clear_current_trajectory s).1
  | CurMutation.toggleClick checked => (toggle_click_mode s checked).1

/-- Run a sequence of post-finish operations. -/
def apply_current_mutations (s : AppState) (ops : List CurMutation) : AppState :=
  ops.foldl apply_current_mutation s

/-- The trajectory-colour slots of a scene element: stroke and fill of circle
markers, stroke of polylines.  (Start/end pin markers use the fixed
green/play and red/stop icons; their icon colour is not drawn from the
palette.) -/
def element_path_colors : SceneElement → List String
  | SceneElement.marker _ _ _ _ => []
  | SceneElement.circleMarker _ _ _ c fc _ _ => [c, fc]
  | SceneElement.polyLine _ c _ _ _ _ => [c]

/-- Is this element a polyline? -/
def is_poly_line : SceneElement → Bool
  | SceneElement.polyLine _ _ _ _ _ _ => true
  | _ => false

/-- Is this element an end ("stop") marker? -/
def is_end_marker : SceneElement → Bool
  | SceneElement.marker _ (Popup.trajEnd _ _) _ _ => true
  | _ => false

/-! ## Theorems -/

theorem add_trajectory_point_completed_eq (s : AppState) (lat lng : ℚ) :
    (add_trajectory_point s lat lng).1.completed_trajectories =
      s.completed_trajectories := by
  unfold add_trajectory_point
  split <;> rfl

theorem apply_current_mutation_completed_eq (s : AppState) (m : CurMutation) :
    (apply_current_mutation s m).completed_trajectories =
      s.completed_trajectories := by
  cases m with
  | mapClick lat lng =>
    show (on_map_click s lat lng).1.completed_trajectories = _
    unfold on_map_click
    split
    · exact add_trajectory_point_completed_eq s lat lng
    · rfl
  | manualAdd lat lng =>
    show (add_manual_point s lat lng).1.completed_trajectories = _
    unfold add_manual_point
    split
    · rfl
    · split
      · rfl
      · exact add_trajectory_point_completed_eq s lat lng
  | clearCurrent =>
    show (clear_current_trajectory s).1.completed_trajectories = _
    unfold clear_current_trajectory
    split <;> rfl
  | toggleClick checked => rfl

theorem apply_current_mutations_completed_eq (ops : List CurMutation)
    (s : AppState) :
    (apply_current_mutations s ops).completed_trajectories =
      s.completed_trajectories := by
  induction ops generalizing s with
  | nil => rfl
  | cons m rest ih =>
    show (apply_current_mutations (apply_current_mutation s m) rest).completed_trajectories = _
    rw [ih, apply_current_mutation_completed_eq]

/-- C1: when click capture is off, a simulated map click is rejected silently
as a no-op, and — contrary to the claim, which says manual entry bypasses the
gate — a manual-entry add with the same valid coordinates `(10, 10)` is ALSO
silently dropped: `add_trajectory_point` re-checks `click_mode_enabled` for
every caller, so `add_manual_point` validates, appends nothing, and still
clears the input fields. -/
theorem C1_manual_entry_blocked_when_click_capture_off :
    on_map_click (toggle_click_mode initial_state false).1 10 10 =
      ((toggle_click_mode initial_state false).1, []) ∧
    add_manual_point (toggle_click_mode initial_state false).1 10 10 =
      ((toggle_click_mode initial_state false).1, [Effect.clearCoordinateInputs]) := by
  decide

/-- C2 counterexample: a map click at `(91, 0)` — latitude outside
`[-90, 90]` — with click capture on is appended to the current trajectory
with no validation error: the map-click path of `addPoint` performs no range
validation at all, so validation is NOT applied identically on both paths. -/
theorem C2_map_click_not_validated :
    on_map_click initial_state 91 0 =
      ({ initial_state with current_trajectory := [(91, 0)] },
       [Effect.updateStatusLabels 0 1,
        Effect.setInfoLabel (InfoMsg.pointAddedFirst 1 91 0),
        Effect.refreshMap]) := by
  decide

/-- C2 (amended): only the manual-entry path validates.  For every out-of-range
input, `add_manual_point` leaves the state unchanged and reports the correct
error kind — latitude checked first (`latitudeOutOfRange` when
`lat ∉ [-90, 90]`), then longitude (`longitudeOutOfRange` when `lat` is in
range but `lng ∉ [-180, 180]`). -/
theorem C2_manual_validation_correct (s : AppState) (lat lng : ℚ) :
    (¬(-90 ≤ lat ∧ lat ≤ 90) →
      add_manual_point s lat lng =
        (s, [Effect.warningDialog DialogMsg.latitudeOutOfRange])) ∧
    ((-90 ≤ lat ∧ lat ≤ 90) → ¬(-180 ≤ lng ∧ lng ≤ 180) →
      add_manual_point s lat lng =
        (s, [Effect.warningDialog DialogMsg.longitudeOutOfRange])) := by
  constructor
  · intro h
    simp [add_manual_point, h]
  · intro h1 h2
    simp [add_manual_point, h1, h2]

theorem C2_manual_validation_correct_witness :
    add_manual_point initial_state 91 0 =
      (initial_state, [Effect.warningDialog DialogMsg.latitudeOutOfRange]) ∧
    add_manual_point initial_state 0 181 =
      (initial_state, [Effect.warningDialog DialogMsg.longitudeOutOfRange]) :=
  ⟨(C2_manual_validation_correct initial_state 91 0).1 (by norm_num),
   (C2_manual_validation_correct initial_state 0 181).2 (by norm_num) (by norm_num)⟩

/-- C4: `finish_current_trajectory` on an empty current trajectory always
fails with the no-trajectory information dialog; `clear_current_trajectory`
on an empty current trajectory and `clear_all_trajectories` with both
collections empty fail with nothing-to-clear information dialogs; in every
such case the whole session state (completed, current, click flag, ...) is
returned unchanged and the only effect is the informational dialog. -/
theorem C4_empty_preconditions_are_noops (s : AppState) (reply : Bool)
    (hcur : s.current_trajectory = []) :
    finish_current_trajectory s reply =
      (s, [Effect.infoDialog DialogMsg.noTrajectory]) ∧
    clear_current_trajectory s =
      (s, [Effect.infoDialog DialogMsg.nothingToClearCurrent]) ∧
    (s.completed_trajectories = [] →
      clear_all_trajectories s reply =
        (s, [Effect.infoDialog DialogMsg.nothingToClearAll])) := by
  refine ⟨?_, ?_, ?_⟩
  · simp [finish_current_trajectory, hcur]
  · simp [clear_current_trajectory, hcur]
  · intro hcomp
    simp [clear_all_trajectories, hcur, hcomp]

theorem C4_empty_preconditions_are_noops_witness :
    finish_current_trajectory initial_state true =
      (initial_state, [Effect.infoDialog DialogMsg.noTrajectory]) ∧
    clear_current_trajectory initial_state =
      (initial_state, [Effect.infoDialog DialogMsg.nothingToClearCurrent]) ∧
    clear_all_trajectories initial_state true =
      (initial_state, [Effect.infoDialog DialogMsg.nothingToClearAll]) := by
  have h := C4_empty_preconditions_are_noops initial_state true rfl
  exact ⟨h.1, h.2.1, h.2.2 rfl⟩

/-- C5: whenever the gate is open (drawing mode and click capture on — the
case in which an `addPoint` succeeds), `add_trajectory_point` on a valid
coordinate pair appends exactly that pair: the new current trajectory is the
old one with `(lat, lng)` appended, so the point count grows by exactly 1 and
the stored point equals the input exactly. -/
theorem C5_valid_add_appends_exactly (s : AppState) (lat lng : ℚ)
    (_hlat : -90 ≤ lat ∧ lat ≤ 90) (_hlng : -180 ≤ lng ∧ lng ≤ 180)
    (hdraw : s.is_drawing_mode = true) (hclick : s.click_mode_enabled = true) :
    (add_trajectory_point s lat lng).1.current_trajectory =
        s.current_trajectory ++ [(lat, lng)] ∧
    (add_trajectory_point s lat lng).1.current_trajectory.length =
        s.current_trajectory.length + 1 ∧
    (add_trajectory_point s lat lng).1.current_trajectory.getLast? =
        some (lat, lng) := by
  have hgate : ¬(s.is_drawing_mode = false ∨ s.click_mode_enabled = false) := by
    simp [hdraw, hclick]
  refine ⟨?_, ?_, ?_⟩ <;>
    simp [add_trajectory_point, hgate, List.getLast?_concat]

theorem C5_valid_add_appends_exactly_witness :
    (add_trajectory_point initial_state 40 (-74)).1.current_trajectory =
        [] ++ [(40, -74)] ∧
    (add_trajectory_point initial_state 40 (-74)).1.current_trajectory.length =
        List.length ([] : List Point) + 1 ∧
    (add_trajectory_point initial_state 40 (-74)).1.current_trajectory.getLast? =
        some (40, -74) :=
  C5_valid_add_appends_exactly initial_state 40 (-74)
    (by norm_num) (by norm_num) rfl rfl

/-- C6: `clear_all_trajectories` on a non-empty session (confirmed by the
operator) empties both collections, leaves the rest of the state alone, and
reports the number of completed trajectories and the number of current points
as two separate counts (carried by the confirmation-dialog text computed
before clearing). -/
theorem C6_clear_all_empties_and_reports_counts (s : AppState)
    (h : ¬(s.completed_trajectories.length = 0 ∧ s.current_trajectory.length = 0)) :
    clear_all_trajectories s true =
      ({ s with completed_trajectories := [], current_trajectory := [] },
       [Effect.questionDialog
          (QuestionMsg.clearAllConfirm s.completed_trajectories.length
            s.current_trajectory.length),
        Effect.updateStatusLabels 0 0,
        Effect.setInfoLabel InfoMsg.allCleared,
        Effect.refreshMap]) := by
  simp [clear_all_trajectories, h]
  intro hc hcur
  exact h (by simp [hc, hcur])

theorem C6_clear_all_empties_and_reports_counts_witness :
    clear_all_trajectories scenario3_state true =
      ({ scenario3_state with
          completed_trajectories := [], current_trajectory := [] },
       [Effect.questionDialog (QuestionMsg.clearAllConfirm 2 2),
        Effect.updateStatusLabels 0 0,
        Effect.setInfoLabel InfoMsg.allCleared,
        Effect.refreshMap]) :=
  C6_clear_all_empties_and_reports_counts scenario3_state (by decide)

/-- C10: if the operator answers No to a confirmation prompt — the
single-point prompt inside `finish_current_trajectory` or the confirmation
inside `clear_all_trajectories` — the operation returns the state completely
unchanged and performs no effect beyond the prompt itself: no status-label
update, no info-label update, no map re-render. -/
theorem C10_declined_confirmation_is_noop (s : AppState) :
    (s.current_trajectory.length = 1 →
      finish_current_trajectory s false =
        (s, [Effect.questionDialog QuestionMsg.singlePointTrajectory])) ∧
    (¬(s.completed_trajectories.length = 0 ∧ s.current_trajectory.length = 0) →
      clear_all_trajectories s false =
        (s, [Effect.questionDialog
              (QuestionMsg.clearAllConfirm s.completed_trajectories.length
                s.current_trajectory.length)])) := by
  constructor
  · intro h1
    simp [finish_current_trajectory, h1]
  · intro h
    simp [clear_all_trajectories, h]
    intro hc hcur
    exact h (by simp [hc, hcur])

theorem C10_declined_confirmation_is_noop_witness :
    finish_current_trajectory
        { initial_state with current_trajectory := [(9, 9)] } false =
      ({ initial_state with current_trajectory := [(9, 9)] },
       [Effect.questionDialog QuestionMsg.singlePointTrajectory]) ∧
    clear_all_trajectories scenario3_state false =
      (scenario3_state,
       [Effect.questionDialog (QuestionMsg.clearAllConfirm 2 2)]) :=
  ⟨(C10_declined_confirmation_is_noop
      { initial_state with current_trajectory := [(9, 9)] }).1 rfl,
   (C10_declined_confirmation_is_noop scenario3_state).2 (by decide)⟩

/-- C3: finishing a non-empty current trajectory (with the single-point
prompt confirmed when it applies) archives exactly the pre-finish current
trajectory: `completed_trajectories` becomes the old list with the old
current trajectory appended (so its length grows by exactly 1 and the
archived points equal the pre-finish current trajectory in order),
`current_trajectory` is reset to empty, and no subsequent sequence of
current-trajectory mutations (map clicks, manual entry, clear-current,
click-mode toggles) ever alters the archived list. -/
theorem C3_finish_archives_exact_copy (s : AppState) (reply : Bool)
    (ops : List CurMutation)
    (hne : s.current_trajectory ≠ [])
    (hconfirm : s.current_trajectory.length = 1 → reply = true) :
    (finish_current_trajectory s reply).1.completed_trajectories =
        s.completed_trajectories ++ [s.current_trajectory] ∧
    (finish_current_trajectory s reply).1.completed_trajectories.length =
        s.completed_trajectories.length + 1 ∧
    (finish_current_trajectory s reply).1.current_trajectory = [] ∧
    (apply_current_mutations (finish_current_trajectory s reply).1 ops).completed_trajectories =
        s.completed_trajectories ++ [s.current_trajectory] := by
  have h0 : ¬s.current_trajectory.length = 0 := by
    simpa [List.length_eq_zero] using hne
  have hmid : ¬(s.current_trajectory.length = 1 ∧ reply = false) := by
    rintro ⟨h1, h2⟩
    rw [hconfirm h1] at h2
    exact absurd h2 (by simp)
  refine ⟨?_, ?_, ?_, ?_⟩
  · simp [finish_current_trajectory, h0, hmid]
  · simp [finish_current_trajectory, h0, hmid]
  · simp [finish_current_trajectory, h0, hmid]
  · rw [apply_current_mutations_completed_eq]
    simp [finish_current_trajectory, h0, hmid]

theorem C3_finish_archives_exact_copy_witness :
    (finish_current_trajectory two_point_state true).1.completed_trajectories =
        [] ++ [[((40 : ℚ), (-74 : ℚ)), (41, -75)]] ∧
    (finish_current_trajectory two_point_state true).1.completed_trajectories.length =
        List.length ([] : List (List Point)) + 1 ∧
    (finish_current_trajectory two_point_state true).1.current_trajectory = [] ∧
    (apply_current_mutations (finish_current_trajectory two_point_state true).1
        [CurMutation.mapClick 5 5, CurMutation.clearCurrent,
         CurMutation.manualAdd 6 6]).completed_trajectories =
        [] ++ [[((40 : ℚ), (-74 : ℚ)), (41, -75)]] :=
  C3_finish_archives_exact_copy two_point_state true
    [CurMutation.mapClick 5 5, CurMutation.clearCurrent, CurMutation.manualAdd 6 6]
    (by decide) (by decide)

/-- C7: every trajectory-colour slot of every element a completed trajectory
at 0-based index `i` contributes to the scene equals
`trajectory_colors[i % len(trajectory_colors)]` — a deterministic pure
function of the index alone, so two stores built by the same sequence of
finish operations colour their trajectories identically; every colour slot of
the in-progress trajectory's elements is the fixed highlight colour
`#FF6600`; and the highlight colour differs from the palette colour of every
index. -/
theorem C7_colors_pure_function_of_index (i j : Nat) (traj cur : List Point) :
    (∀ e ∈ add_single_trajectory_to_map traj i true,
        ∀ c ∈ element_path_colors e, c = palette_color i) ∧
    (∀ e ∈ add_single_trajectory_to_map cur j false,
        ∀ c ∈ element_path_colors e, c = current_highlight_color) ∧
    current_highlight_color ≠ palette_color i := by
  refine ⟨?_, ?_, ?_⟩
  · intro e he c hc
    by_cases h0 : traj.length = 0
    · simp [add_single_trajectory_to_map, h0] at he
    · simp only [add_single_trajectory_to_map, h0, if_false] at he
      rcases List.mem_append.mp he with hm | hl
      · rcases List.mem_map.mp hm with ⟨ip, _, rfl⟩
        unfold trajectory_point_marker at hc
        split_ifs at hc
        all_goals simp [element_path_colors] at hc
        all_goals tauto
      · by_cases h1 : traj.length > 1
        · rw [if_pos h1] at hl
          simp at hl
          rw [hl] at hc
          simpa [element_path_colors] using hc
        · rw [if_neg h1] at hl
          simp at hl
  · intro e he c hc
    by_cases h0 : cur.length = 0
    · simp [add_single_trajectory_to_map, h0] at he
    · simp only [add_single_trajectory_to_map, h0, if_false] at he
      rcases List.mem_append.mp he with hm | hl
      · rcases List.mem_map.mp hm with ⟨ip, _, rfl⟩
        unfold trajectory_point_marker at hc
        simp [element_path_colors] at hc
        tauto
      · by_cases h1 : cur.length > 1
        · rw [if_pos h1] at hl
          simp at hl
          rw [hl] at hc
          simpa [element_path_colors] using hc
        · rw [if_neg h1] at hl
          simp at hl
  · have hlt : i % trajectory_colors.length < trajectory_colors.length :=
      Nat.mod_lt _ (by decide)
    have hall : ∀ k, k < trajectory_colors.length →
        current_highlight_color ≠ trajectory_colors.getD k "" := by decide
    exact hall _ hlt

theorem C7_colors_pure_function_of_index_witness :
    "red" = palette_color 0 ∧
    "#FF6600" = current_highlight_color ∧
    current_highlight_color ≠ palette_color 0 := by
  have h := C7_colors_pure_function_of_index 0 0 [(1, 1), (2, 2)] [(3, 3), (4, 4)]
  refine ⟨?_, ?_, h.2.2⟩
  · exact h.1
      (SceneElement.polyLine [(1, 1), (2, 2)] (palette_color 0) 4 (4/5) none
        (Popup.trajLine 1 2))
      (by simp [add_single_trajectory_to_map, trajectory_point_marker])
      "red" (by simp [element_path_colors, palette_color, trajectory_colors])
  · exact h.2.1
      (SceneElement.polyLine [(3, 3), (4, 4)] current_highlight_color 5 1
        (some "10, 5") (Popup.currentLine 2))
      (by simp [add_single_trajectory_to_map, trajectory_point_marker])
      "#FF6600" (by simp [element_path_colors, current_highlight_color])

theorem add_single_eq_of_ne_nil (traj : List Point) (idx : Nat) (b : Bool)
    (h : traj ≠ []) :
    add_single_trajectory_to_map traj idx b =
      traj.enum.map
        (fun ip => trajectory_point_marker (palette_color idx) idx traj.length b ip.1 ip.2)
      ++ (if traj.length > 1 then
            match b with
            | true =>
              [SceneElement.polyLine traj (palette_color idx) 4 (4/5) none
                (Popup.trajLine (idx + 1) traj.length)]
            | false =>
              [SceneElement.polyLine traj current_highlight_color 5 1
                (some "10, 5") (Popup.currentLine traj.length)]
          else []) := by
  have h0 : ¬traj.length = 0 := by simpa [List.length_eq_zero] using h
  simp [add_single_trajectory_to_map, h0]

/-- C8: scene contents per trajectory.  For a non-empty completed trajectory
at index `idx`: its first scene element is the green/play start marker at its
first point; the red/stop end marker at its last point is present when it has
at least 2 points, and an end marker occurs only then; every interior point
appears as a small (radius-5) filled circle in the palette colour; and the
solid polyline through all its points is present exactly when it has at least
2 points.  For a non-empty current trajectory: every point appears as a
larger (radius-8) highlight-coloured circle marker, and the dashed
(`10, 5`) highlight polyline through all its points is present exactly when
it has at least 2 points. -/
theorem C8_scene_contents (idx j : Nat) (traj cur : List Point)
    (hne : traj ≠ []) (hneC : cur ≠ []) :
    (∀ p0, traj.head? = some p0 →
      (add_single_trajectory_to_map traj idx true).head? =
        some (SceneElement.marker p0 (Popup.trajStart (idx + 1) p0) "green" "play")) ∧
    (∀ plast, traj.getLast? = some plast → 2 ≤ traj.length →
      SceneElement.marker plast (Popup.trajEnd (idx + 1) plast) "red" "stop" ∈
        add_single_trajectory_to_map traj idx true) ∧
    ((∃ e ∈ add_single_trajectory_to_map traj idx true, is_end_marker e = true) →
      2 ≤ traj.length) ∧
    (∀ k (hk : k < traj.length), 0 < k → k + 1 < traj.length →
      SceneElement.circleMarker traj[k] 5 (Popup.midPoint (k + 1) traj[k])
        (palette_color idx) (palette_color idx) (7/10) none ∈
        add_single_trajectory_to_map traj idx true) ∧
    (2 ≤ traj.length →
      SceneElement.polyLine traj (palette_color idx) 4 (4/5) none
        (Popup.trajLine (idx + 1) traj.length) ∈
        add_single_trajectory_to_map traj idx true) ∧
    ((∃ e ∈ add_single_trajectory_to_map traj idx true, is_poly_line e = true) →
      2 ≤ traj.length) ∧
    (∀ k (hk : k < cur.length),
      SceneElement.circleMarker cur[k] 8 (Popup.currentPoint (k + 1) cur[k])
        current_highlight_color current_highlight_color 1 (some 3) ∈
        add_single_trajectory_to_map cur j false) ∧
    (2 ≤ cur.length →
      SceneElement.polyLine cur current_highlight_color 5 1 (some "10, 5")
        (Popup.currentLine cur.length) ∈
        add_single_trajectory_to_map cur j false) ∧
    ((∃ e ∈ add_single_trajectory_to_map cur j false, is_poly_line e = true) →
      2 ≤ cur.length) := by
  have hs := add_single_eq_of_ne_nil traj idx true hne
  have hsC := add_single_eq_of_ne_nil cur j false hneC
  refine ⟨?_, ?_, ?_, ?_, ?_, ?_, ?_, ?_, ?_⟩
  · intro p0 hp0
    obtain ⟨p, rest, rfl⟩ := List.exists_cons_of_ne_nil hne
    simp only [List.head?_cons, Option.some.injEq] at hp0
    subst hp0
    rw [hs, List.enum_cons]
    simp [trajectory_point_marker]
  · intro plast hlast h2
    have hlt : traj.length - 1 < traj.length := by omega
    have hmem : (traj.length - 1, traj[traj.length - 1]) ∈ traj.enum :=
      List.mk_mem_enum_iff_getElem?.mpr (List.getElem?_eq_getElem hlt)
    have hplast : plast = traj[traj.length - 1] := by
      have h1 := List.getLast?_eq_getLast_of_ne_nil hne
      rw [h1, List.getLast_eq_getElem] at hlast
      exact (Option.some.inj hlast).symm
    have hn0 : ¬(traj.length - 1 = 0) := by omega
    rw [hs]
    apply List.mem_append_left
    have hmap := List.mem_map_of_mem
      (fun ip => trajectory_point_marker (palette_color idx) idx traj.length true ip.1 ip.2)
      hmem
    simpa [trajectory_point_marker, hn0, hplast] using hmap
  · rintro ⟨e, he, hend⟩
    rw [hs] at he
    rcases List.mem_append.mp he with hm | hl
    · by_contra hn2
      obtain ⟨x, hx, rfl⟩ := List.mem_map.mp hm
      obtain ⟨k, p⟩ := x
      have hb := List.mk_mem_enum_iff_getElem?.mp hx
      obtain ⟨hklt, -⟩ := List.getElem?_eq_some.mp hb
      have hn1 : traj.length = 1 := by
        rcases Nat.lt_or_ge traj.length 2 with h | h
        · have : traj.length ≠ 0 := by
            simpa [List.length_eq_zero] using hne
          omega
        · exact absurd h hn2
      have hk0 : k = 0 := by omega
      subst hk0
      simp [trajectory_point_marker, is_end_marker] at hend
    · by_cases h1 : traj.length > 1
      · exact h1
      · rw [if_neg h1] at hl
        simp at hl
  · intro k hk hk0 hklt
    have hmem : (k, traj[k]) ∈ traj.enum :=
      List.mk_mem_enum_iff_getElem?.mpr (List.getElem?_eq_getElem hk)
    have hne0 : ¬(k = 0) := by omega
    have hnel : ¬(k = traj.length - 1) := by omega
    rw [hs]
    apply List.mem_append_left
    have hmap := List.mem_map_of_mem
      (fun ip => trajectory_point_marker (palette_color idx) idx traj.length true ip.1 ip.2)
      hmem
    simpa [trajectory_point_marker, hne0, hnel] using hmap
  · intro h2
    have h1 : traj.length > 1 := h2
    rw [hs]
    apply List.mem_append_right
    rw [if_pos h1]
    exact List.mem_singleton_self _
  · rintro ⟨e, he, hpl⟩
    rw [hs] at he
    rcases List.mem_append.mp he with hm | hl
    · obtain ⟨x, hx, rfl⟩ := List.mem_map.mp hm
      have : is_poly_line
          (trajectory_point_marker (palette_color idx) idx traj.length true x.1 x.2) =
            false := by
        unfold trajectory_point_marker
        split_ifs <;> simp [is_poly_line]
      rw [this] at hpl
      cases hpl
    · by_cases h1 : traj.length > 1
      · exact h1
      · rw [if_neg h1] at hl
        simp at hl
  · intro k hk
    have hmem : (k, cur[k]) ∈ cur.enum :=
      List.mk_mem_enum_iff_getElem?.mpr (List.getElem?_eq_getElem hk)
    rw [hsC]
    apply List.mem_append_left
    have hmap := List.mem_map_of_mem
      (fun ip => trajectory_point_marker (palette_color j) j cur.length false ip.1 ip.2)
      hmem
    simpa [trajectory_point_marker] using hmap
  · intro h2
    have h1 : cur.length > 1 := h2
    rw [hsC]
    apply List.mem_append_right
    rw [if_pos h1]
    exact List.mem_singleton_self _
  · rintro ⟨e, he, hpl⟩
    rw [hsC] at he
    rcases List.mem_append.mp he with hm | hl
    · obtain ⟨x, hx, rfl⟩ := List.mem_map.mp hm
      have : is_poly_line
          (trajectory_point_marker (palette_color j) j cur.length false x.1 x.2) =
            false := by
        unfold trajectory_point_marker
        simp [is_poly_line]
      rw [this] at hpl
      cases hpl
    · by_cases h1 : cur.length > 1
      · exact h1
      · rw [if_neg h1] at hl
        simp at hl

theorem C8_scene_contents_witness :
    (add_single_trajectory_to_map [(1, 1), (2, 2), (3, 3)] 0 true).head? =
      some (SceneElement.marker (1, 1) (Popup.trajStart 1 (1, 1)) "green" "play") ∧
    SceneElement.marker (3, 3) (Popup.trajEnd 1 (3, 3)) "red" "stop" ∈
      add_single_trajectory_to_map [(1, 1), (2, 2), (3, 3)] 0 true ∧
    SceneElement.circleMarker (2, 2) 5 (Popup.midPoint 2 (2, 2))
        (palette_color 0) (palette_color 0) (7/10) none ∈
      add_single_trajectory_to_map [(1, 1), (2, 2), (3, 3)] 0 true ∧
    SceneElement.polyLine [(1, 1), (2, 2), (3, 3)] (palette_color 0) 4 (4/5)
        none (Popup.trajLine 1 3) ∈
      add_single_trajectory_to_map [(1, 1), (2, 2), (3, 3)] 0 true ∧
    SceneElement.circleMarker (4, 4) 8 (Popup.currentPoint 1 (4, 4))
        current_highlight_color current_highlight_color 1 (some 3) ∈
      add_single_trajectory_to_map [(4, 4), (5, 5)] 2 false ∧
    SceneElement.polyLine [(4, 4), (5, 5)] current_highlight_color 5 1
        (some "10, 5") (Popup.currentLine 2) ∈
      add_single_trajectory_to_map [(4, 4), (5, 5)] 2 false := by
  have h := C8_scene_contents 0 2 [(1, 1), (2, 2), (3, 3)] [(4, 4), (5, 5)]
    (by simp) (by simp)
  exact ⟨h.1 (1, 1) rfl,
         h.2.1 (3, 3) rfl (by norm_num),
         h.2.2.2.1 1 (by norm_num) (by norm_num) (by norm_num),
         h.2.2.2.2.1 (by norm_num),
         h.2.2.2.2.2.2.1 0 (by norm_num),
         h.2.2.2.2.2.2.2.1 (by norm_num)⟩

/-- C9: the scene build is deterministic — it is a pure, total function of
`(completed_trajectories, current_trajectory, map_style)`, so any two states
identical in those inputs (regardless of click mode, drawing mode, or any
prior render) produce equal rendered maps, and building twice from the same
state trivially yields the same scene.  Element order: the scene always
splits into the completed trajectories' elements followed by the current
trajectory's elements, and appending one more completed trajectory extends
the completed part at its end — i.e. completed trajectories appear in index
order, then the current trajectory. -/
theorem C9_scene_build_deterministic_ordered (s1 s2 : AppState)
    (completed : List (List Point)) (t current : List Point)
    (hc : s1.completed_trajectories = s2.completed_trajectories)
    (hcur : s1.current_trajectory = s2.current_trajectory)
    (hstyle : s1.map_style = s2.map_style) :
    refresh_map s1 = refresh_map s2 ∧
    add_all_trajectories_to_map completed current =
      add_all_trajectories_to_map completed []
        ++ (if current.isEmpty then []
            else add_single_trajectory_to_map current completed.length false) ∧
    add_all_trajectories_to_map (completed ++ [t]) [] =
      add_all_trajectories_to_map completed []
        ++ add_single_trajectory_to_map t completed.length true := by
  refine ⟨?_, ?_, ?_⟩
  · simp [refresh_map, refresh_center_zoom, hc, hcur, hstyle]
  · simp [add_all_trajectories_to_map]
  · simp [add_all_trajectories_to_map, List.enum_append]

theorem C9_scene_build_deterministic_ordered_witness :
    refresh_map scenario3_state =
      refresh_map { scenario3_state with
        click_mode_enabled := false, is_drawing_mode := false } ∧
    add_all_trajectories_to_map [[(1, 1)]] [(3, 3)] =
      add_all_trajectories_to_map [[(1, 1)]] []
        ++ add_single_trajectory_to_map [(3, 3)] 1 false ∧
    add_all_trajectories_to_map [[(1, 1)], [(2, 2)]] [] =
      add_all_trajectories_to_map [[(1, 1)]] []
        ++ add_single_trajectory_to_map [(2, 2)] 1 true :=
  C9_scene_build_deterministic_ordered scenario3_state
    { scenario3_state with click_mode_enabled := false, is_drawing_mode := false }
    [[(1, 1)]] [(2, 2)] [(3, 3)] rfl rfl rfl

end TrajectoryMap
